import Mathlib

/-!
Shallow embedding of the dual-arm factory controller layer of this
repository (`factory_base_MARL2.py` and
`factory_task_nut_bolt_pick_MARL2.py`): the tensor-view bookkeeping of
`acquire_base_tensors` / `refresh_base_tensors`, the controller-mode
parser `parse_controller_spec` with its DOF drive-property side effect,
the manual-mode command dispatcher of `generate_ctrl_signals` /
`_wrap_tensor`, and the rotation-target portion of
`_apply_actions_as_ctrl_targets`.  Scalars are exact rationals (float
rounding is not modelled); the float NaN produced by a zero-norm axis
division is modelled by an `Option` poison value.
-/

namespace PandaFactory

/-- A 3-vector of rationals (one row of a `(num_envs, 3)` tensor). -/
structure Vec3 where
  x : ℚ
  y : ℚ
  z : ℚ
deriving DecidableEq

/-- A quaternion in IsaacGym `xyzw` component order. -/
structure Quat where
  x : ℚ
  y : ℚ
  z : ℚ
  w : ℚ
deriving DecidableEq

def vadd (a b : Vec3) : Vec3 := ⟨a.x + b.x, a.y + b.y, a.z + b.z⟩

def vsub (a b : Vec3) : Vec3 := ⟨a.x - b.x, a.y - b.y, a.z - b.z⟩

def smulV (c : ℚ) (v : Vec3) : Vec3 := ⟨c * v.x, c * v.y, c * v.z⟩

def dotV (a b : Vec3) : ℚ := a.x * b.x + a.y * b.y + a.z * b.z

/-- `torch.cross(a, b, dim=1)` on one row. -/
def cross (a b : Vec3) : Vec3 :=
  ⟨a.y * b.z - a.z * b.y, a.z * b.x - a.x * b.z, a.x * b.y - a.y * b.x⟩

/-- Rotation of a vector by a unit quaternion, the external
`torch_utils.quat_rotate`: `v (2w² − 1) + 2w (q_v × v) + 2 (q_v ⋅ v) q_v`. -/
def quat_rotate (q : Quat) (v : Vec3) : Vec3 :=
  vadd
    (vadd (smulV (2 * q.w * q.w - 1) v)
      (smulV (2 * q.w) (cross ⟨q.x, q.y, q.z⟩ v)))
    (smulV (2 * dotV ⟨q.x, q.y, q.z⟩ v) ⟨q.x, q.y, q.z⟩)

/-- Modelled from the spec: `fc.translate_along_local_z` is imported from
`factory_control_MARL2`, which is not under src.  The spec describes it as
offsetting a position "along the hand's local z-axis by a configured finger
length", i.e. `pos + R(quat)·(0, 0, offset)`. -/
def translate_along_local_z (pos : Vec3) (quat : Quat) (offset : ℚ) : Vec3 :=
  vadd pos (quat_rotate quat ⟨0, 0, offset⟩)

/-- One rigid body's slice of the simulator body-state tensor:
position, orientation, linear velocity, angular velocity. -/
structure Frame where
  pos : Vec3
  quat : Quat
  linvel : Vec3
  angvel : Vec3
deriving DecidableEq

/-- The per-arm bodies the controller reads:
hand, left finger, right finger, and the fingertip-centered body. -/
structure ArmBodies where
  hand : Frame
  left_finger : Frame
  right_finger : Frame
  fingertip_centered : Frame
deriving DecidableEq

/-- Simulator-owned state for one environment: the body frames of both
arms, and the raw per-arm Jacobian (link × 6 × 9 DOFs, indices beyond the
valid range are junk) and mass-matrix (9 × 9) tensors that
`gym.refresh_jacobian_tensors` / `gym.refresh_mass_matrix_tensors`
overwrite in place each step. -/
structure SimState where
  bodies1 : ArmBodies
  bodies2 : ArmBodies
  jac1 : ℕ → ℕ → ℕ → ℚ
  jac2 : ℕ → ℕ → ℕ → ℚ
  mm1 : ℕ → ℕ → ℚ
  mm2 : ℕ → ℕ → ℚ

/-- `np.concatenate((j1, j2), axis=3)`: column (DOF) axis concatenation of
two 9-DOF Jacobians into an 18-column one. -/
def np_concat_axis3 (j1 j2 : ℕ → ℕ → ℕ → ℚ) : ℕ → ℕ → ℕ → ℚ :=
  fun l r c => if c < 9 then j1 l r c else j2 l r (c - 9)

/-- `np.concatenate((ja, jb), axis=1)`: link axis concatenation of two
11-link Jacobians into a 22-link one. -/
def np_concat_axis1 (ja jb : ℕ → ℕ → ℕ → ℚ) : ℕ → ℕ → ℕ → ℚ :=
  fun l r c => if l < 11 then ja l r c else jb (l - 11) r c

/-- `np.concatenate((m1, m2), axis=1)`: row concatenation of two 9×9 mass
matrices into an 18×9 one. -/
def np_concat_mm (m1 m2 : ℕ → ℕ → ℚ) : ℕ → ℕ → ℚ :=
  fun r c => if r < 9 then m1 r c else m2 (r - 9) c

/-- The controller-side copies built once by `acquire_base_tensors`.
The numpy round trip (`.cpu().numpy()`, `np.concatenate`,
`torch.from_numpy(...).to(device)`) COPIES the simulator buffers, so these
fields are snapshots of the simulator state at acquisition time. -/
structure AcquiredTensors where
  jacobian : ℕ → ℕ → ℕ → ℚ
  mass_matrix : ℕ → ℕ → ℚ

/-- `acquire_base_tensors`: `self.jacobian` is the link-axis
self-concatenation of the column-axis concatenation of the two per-arm
Jacobians; `self.mass_matrix` is the axis-1 concatenation of the two
per-arm mass matrices.  Both are detached copies of `s`. -/
def acquire_base_tensors (s : SimState) : AcquiredTensors :=
  { jacobian :=
      np_concat_axis1 (np_concat_axis3 s.jac1 s.jac2) (np_concat_axis3 s.jac1 s.jac2)
    mass_matrix := np_concat_mm s.mm1 s.mm2 }

/-- Body index of the first arm's hand (documented in
`acquire_base_tensors`: `self.hand_body_id_env = 8`). -/
def hand_body_id_env : ℕ := 8

/-- Body index of the second arm's hand (documented in
`acquire_base_tensors`: `self.hand_body_id_env_2 = 20`). -/
def hand_body_id_env_2 : ℕ := 20

/-- Body index of the first arm's left finger (documented in
`acquire_base_tensors`: `self.left_finger_body_id_env = 9`). -/
def left_finger_body_id_env : ℕ := 9

/-- Body index of the second arm's left finger (documented in
`acquire_base_tensors`: `self.left_finger_body_id_env_2 = 21`). -/
def left_finger_body_id_env_2 : ℕ := 21

/-- `self.hand_jacobian = self.jacobian[:, hand_body_id_env - 1, 0:6, 0:7]`. -/
def hand_jacobian (a : AcquiredTensors) : Fin 6 → Fin 7 → ℚ :=
  fun r c => a.jacobian (hand_body_id_env - 1) r c

/-- `self.hand_jacobian_2 = self.jacobian[:, hand_body_id_env_2 - 2, 0:6, 9:16]`. -/
def hand_jacobian_2 (a : AcquiredTensors) : Fin 6 → Fin 7 → ℚ :=
  fun r c => a.jacobian (hand_body_id_env_2 - 2) r (9 + (c : ℕ))

/-- `self.left_finger_jacobian = self.jacobian[:, left_finger_body_id_env - 1, 0:6, 0:7]`. -/
def left_finger_jacobian (a : AcquiredTensors) : Fin 6 → Fin 7 → ℚ :=
  fun r c => a.jacobian (left_finger_body_id_env - 1) r c

/-- `self.left_finger_jacobian_2 = self.jacobian[:, left_finger_body_id_env_2 - 2, 0:6, 9:16]`. -/
def left_finger_jacobian_2 (a : AcquiredTensors) : Fin 6 → Fin 7 → ℚ :=
  fun r c => a.jacobian (left_finger_body_id_env_2 - 2) r (9 + (c : ℕ))

/-- Modelled from the spec: the right-finger body index is assigned in the
environment class, which is not under src; by the documented layout
(12 bodies per arm, hand 8, left finger 9) it is 10. -/
def right_finger_body_id_env : ℕ := 10

/-- Modelled from the spec: second arm body indices are offset by 12
(hand 20, left finger 21), so the right finger is 22. -/
def right_finger_body_id_env_2 : ℕ := 22

/-- `self.right_finger_jacobian = self.jacobian[:, right_finger_body_id_env - 1, 0:6, 0:7]`. -/
def right_finger_jacobian (a : AcquiredTensors) : Fin 6 → Fin 7 → ℚ :=
  fun r c => a.jacobian (right_finger_body_id_env - 1) r c

/-- `self.right_finger_jacobian_2 = self.jacobian[:, right_finger_body_id_env_2 - 2, 0:6, 9:16]`. -/
def right_finger_jacobian_2 (a : AcquiredTensors) : Fin 6 → Fin 7 → ℚ :=
  fun r c => a.jacobian (right_finger_body_id_env_2 - 2) r (9 + (c : ℕ))

/-- `self.arm_mass_matrix = self.mass_matrix[:, 0:7, 0:7]`. -/
def arm_mass_matrix (a : AcquiredTensors) : Fin 7 → Fin 7 → ℚ :=
  fun r c => a.mass_matrix r c

/-- `self.arm_mass_matrix_2 = self.mass_matrix[:, 9:16, 0:7]`. -/
def arm_mass_matrix_2 (a : AcquiredTensors) : Fin 7 → Fin 7 → ℚ :=
  fun r c => a.mass_matrix (9 + (r : ℕ)) c

/-- `self.finger_midpoint_pos = (self.left_finger_pos + self.right_finger_pos) * 0.5`. -/
def finger_midpoint_pos (b : ArmBodies) : Vec3 :=
  smulV (1 / 2) (vadd b.left_finger.pos b.right_finger.pos)

/-- `self.fingertip_midpoint_pos = fc.translate_along_local_z(finger_midpoint_pos, hand_quat, franka_finger_length)`. -/
def fingertip_midpoint_pos_of (b : ArmBodies) (franka_finger_length : ℚ) : Vec3 :=
  translate_along_local_z (finger_midpoint_pos b) b.hand.quat franka_finger_length

/-- `self.fingertip_midpoint_linvel = self.fingertip_centered_linvel +
torch.cross(self.fingertip_centered_angvel, fingertip_midpoint_pos - fingertip_centered_pos)`. -/
def fingertip_midpoint_linvel_of (b : ArmBodies) (franka_finger_length : ℚ) : Vec3 :=
  vadd b.fingertip_centered.linvel
    (cross b.fingertip_centered.angvel
      (vsub (fingertip_midpoint_pos_of b franka_finger_length) b.fingertip_centered.pos))

/-- The derived fingertip-midpoint quantities recomputed by
`refresh_base_tensors` for both arms (plus the midpoint orientation views,
which alias the fingertip-centered body quaternions). -/
structure MidpointState where
  fingertip_midpoint_pos : Vec3
  fingertip_midpoint_quat : Quat
  fingertip_midpoint_linvel : Vec3
  fingertip_midpoint_jacobian : Fin 6 → Fin 7 → ℚ
  fingertip_midpoint_pos_2 : Vec3
  fingertip_midpoint_quat_2 : Quat
  fingertip_midpoint_linvel_2 : Vec3
  fingertip_midpoint_jacobian_2 : Fin 6 → Fin 7 → ℚ

/-- `refresh_base_tensors`: the `gym.refresh_*` calls bring the simulator
state `s` up to date (the body-state views alias it directly), then the
midpoint position / linear velocity / Jacobian are recomputed.  The
finger-Jacobian views read the acquisition-time copies `a`, because the
numpy concatenation in `acquire_base_tensors` detached them from the
buffers that `gym.refresh_jacobian_tensors` updates. -/
def refresh_base_tensors (a : AcquiredTensors) (s : SimState)
    (franka_finger_length : ℚ) : MidpointState :=
  { fingertip_midpoint_pos := fingertip_midpoint_pos_of s.bodies1 franka_finger_length
    fingertip_midpoint_quat := s.bodies1.fingertip_centered.quat
    fingertip_midpoint_linvel := fingertip_midpoint_linvel_of s.bodies1 franka_finger_length
    fingertip_midpoint_jacobian := fun r c =>
      (left_finger_jacobian a r c + right_finger_jacobian a r c) * (1 / 2)
    fingertip_midpoint_pos_2 := fingertip_midpoint_pos_of s.bodies2 franka_finger_length
    fingertip_midpoint_quat_2 := s.bodies2.fingertip_centered.quat
    fingertip_midpoint_linvel_2 := fingertip_midpoint_linvel_of s.bodies2 franka_finger_length
    fingertip_midpoint_jacobian_2 := fun r c =>
      (left_finger_jacobian_2 a r c + right_finger_jacobian_2 a r c) * (1 / 2) }

/-- Translate one body's position by `c`, leaving orientation and
velocities unchanged. -/
def translate_frame (f : Frame) (c : Vec3) : Frame :=
  { f with pos := vadd f.pos c }

/-- Translate all of one arm's body positions by `c`. -/
def translate_bodies (b : ArmBodies) (c : Vec3) : ArmBodies :=
  { hand := translate_frame b.hand c
    left_finger := translate_frame b.left_finger c
    right_finger := translate_frame b.right_finger c
    fingertip_centered := translate_frame b.fingertip_centered c }

/-- Translate every body position in the scene by `c`. -/
def translate_scene (s : SimState) (c : Vec3) : SimState :=
  { s with bodies1 := translate_bodies s.bodies1 c
           bodies2 := translate_bodies s.bodies2 c }

/-- Modelled from the spec: the fingertip-centered frame is "a real body,
the 'hand' treated as rigid with the fingers", with "no relative rotation
between hand and midpoint".  The URDF fixing this attachment is not under
src; rigid attachment with identity relative rotation means equal
orientation, equal angular velocity, and the rigid-body velocity law. -/
def rigidly_attached (hand fc : Frame) : Prop :=
  fc.quat = hand.quat ∧ fc.angvel = hand.angvel ∧
    fc.linvel = vadd hand.linvel (cross hand.angvel (vsub fc.pos hand.pos))

/-- `gymapi` DOF drive modes used by `parse_controller_spec`. -/
inductive DriveMode where
  | dofModeNone
  | dofModePos
  | dofModeEffort
deriving DecidableEq

/-- One actor's DOF properties (`gym.get_actor_dof_properties`):
drive mode, per-DOF stiffness and damping arrays. -/
structure DofProps where
  driveMode : DriveMode
  stiffness : List ℚ
  damping : List ℚ
deriving DecidableEq

/-- `cfg_task.ctrl.all`. -/
structure CtrlAll where
  jacobian_type : String
  gripper_prop_gains : List ℚ
  gripper_deriv_gains : List ℚ
deriving DecidableEq

/-- `cfg_task.ctrl.gym_default`. -/
structure GymDefaultGains where
  ik_method : String
  joint_prop_gains : List ℚ
  joint_deriv_gains : List ℚ
  gripper_prop_gains : List ℚ
  gripper_deriv_gains : List ℚ
deriving DecidableEq

/-- Gain bundle of `cfg_task.ctrl.joint_space_ik` / `joint_space_id`. -/
structure JointGains where
  ik_method : String
  joint_prop_gains : List ℚ
  joint_deriv_gains : List ℚ
deriving DecidableEq

/-- Gain bundle of `cfg_task.ctrl.task_space_impedance` /
`operational_space_motion`. -/
structure TaskMotionGains where
  task_prop_gains : List ℚ
  task_deriv_gains : List ℚ
  motion_ctrl_axes : List ℚ
deriving DecidableEq

/-- Gain bundle of `cfg_task.ctrl.open_loop_force`. -/
structure OpenForceGains where
  force_ctrl_axes : List ℚ
deriving DecidableEq

/-- Gain bundle of `cfg_task.ctrl.closed_loop_force`. -/
structure ClosedForceGains where
  wrench_prop_gains : List ℚ
  force_ctrl_axes : List ℚ
deriving DecidableEq

/-- Gain bundle of `cfg_task.ctrl.hybrid_force_motion`. -/
structure HybridGains where
  task_prop_gains : List ℚ
  task_deriv_gains : List ℚ
  motion_ctrl_axes : List ℚ
  wrench_prop_gains : List ℚ
  force_ctrl_axes : List ℚ
deriving DecidableEq

/-- The `cfg_task.ctrl` subtree consumed by `parse_controller_spec`. -/
structure CtrlCfg where
  all : CtrlAll
  gym_default : GymDefaultGains
  joint_space_ik : JointGains
  joint_space_id : JointGains
  task_space_impedance : TaskMotionGains
  operational_space_motion : TaskMotionGains
  open_loop_force : OpenForceGains
  closed_loop_force : ClosedForceGains
  hybrid_force_motion : HybridGains
deriving DecidableEq

/-- `self.cfg_ctrl`: the dictionary whose keys are all initialized to
`None` and selectively populated per mode (`num_envs` and the per-env
tensor replication are dropped; gains are single rows). -/
structure CfgCtrl where
  jacobian_type : Option String
  gripper_prop_gains : Option (List ℚ)
  gripper_deriv_gains : Option (List ℚ)
  motor_ctrl_mode : Option String
  gain_space : Option String
  ik_method : Option String
  joint_prop_gains : Option (List ℚ)
  joint_deriv_gains : Option (List ℚ)
  do_motion_ctrl : Option Bool
  task_prop_gains : Option (List ℚ)
  task_deriv_gains : Option (List ℚ)
  do_inertial_comp : Option Bool
  motion_ctrl_axes : Option (List ℚ)
  do_force_ctrl : Option Bool
  force_ctrl_method : Option String
  wrench_prop_gains : Option (List ℚ)
  force_ctrl_axes : Option (List ℚ)
deriving DecidableEq

/-- The dictionary state after the unconditional assignments at the top of
`parse_controller_spec` (`jacobian_type` and the gripper gains from
`cfg_task.ctrl.all`); every mode-dependent key is still `None`. -/
def init_cfg_ctrl (cfg : CtrlCfg) : CfgCtrl :=
  { jacobian_type := some cfg.all.jacobian_type
    gripper_prop_gains := some cfg.all.gripper_prop_gains
    gripper_deriv_gains := some cfg.all.gripper_deriv_gains
    motor_ctrl_mode := none
    gain_space := none
    ik_method := none
    joint_prop_gains := none
    joint_deriv_gains := none
    do_motion_ctrl := none
    task_prop_gains := none
    task_deriv_gains := none
    do_inertial_comp := none
    motion_ctrl_axes := none
    do_force_ctrl := none
    force_ctrl_method := none
    wrench_prop_gains := none
    force_ctrl_axes := none }

/-- The `if ctrl_type == ... / elif ...` chain of `parse_controller_spec`
(note: there is no `else` branch). -/
def cfg_ctrl_of_mode (ctrl_type : String) (cfg : CtrlCfg) : CfgCtrl :=
  let c0 := init_cfg_ctrl cfg
  if ctrl_type = ("gym_default") then
    { c0 with motor_ctrl_mode := some ("gym"), gain_space := some ("joint")
              ik_method := some cfg.gym_default.ik_method
              joint_prop_gains := some cfg.gym_default.joint_prop_gains
              joint_deriv_gains := some cfg.gym_default.joint_deriv_gains
              gripper_prop_gains := some cfg.gym_default.gripper_prop_gains
              gripper_deriv_gains := some cfg.gym_default.gripper_deriv_gains }
  else if ctrl_type = ("joint_space_ik") then
    { c0 with motor_ctrl_mode := some ("manual"), gain_space := some ("joint")
              ik_method := some cfg.joint_space_ik.ik_method
              joint_prop_gains := some cfg.joint_space_ik.joint_prop_gains
              joint_deriv_gains := some cfg.joint_space_ik.joint_deriv_gains
              do_inertial_comp := some false }
  else if ctrl_type = ("joint_space_id") then
    { c0 with motor_ctrl_mode := some ("manual"), gain_space := some ("joint")
              ik_method := some cfg.joint_space_id.ik_method
              joint_prop_gains := some cfg.joint_space_id.joint_prop_gains
              joint_deriv_gains := some cfg.joint_space_id.joint_deriv_gains
              do_inertial_comp := some true }
  else if ctrl_type = ("task_space_impedance") then
    { c0 with motor_ctrl_mode := some ("manual"), gain_space := some ("task")
              do_motion_ctrl := some true
              task_prop_gains := some cfg.task_space_impedance.task_prop_gains
              task_deriv_gains := some cfg.task_space_impedance.task_deriv_gains
              do_inertial_comp := some false
              motion_ctrl_axes := some cfg.task_space_impedance.motion_ctrl_axes
              do_force_ctrl := some false }
  else if ctrl_type = ("operational_space_motion") then
    { c0 with motor_ctrl_mode := some ("manual"), gain_space := some ("task")
              do_motion_ctrl := some true
              task_prop_gains := some cfg.operational_space_motion.task_prop_gains
              task_deriv_gains := some cfg.operational_space_motion.task_deriv_gains
              do_inertial_comp := some true
              motion_ctrl_axes := some cfg.operational_space_motion.motion_ctrl_axes
              do_force_ctrl := some false }
  else if ctrl_type = ("open_loop_force") then
    { c0 with motor_ctrl_mode := some ("manual"), gain_space := some ("task")
              do_motion_ctrl := some false
              do_force_ctrl := some true
              force_ctrl_method := some ("open")
              force_ctrl_axes := some cfg.open_loop_force.force_ctrl_axes }
  else if ctrl_type = ("closed_loop_force") then
    { c0 with motor_ctrl_mode := some ("manual"), gain_space := some ("task")
              do_motion_ctrl := some false
              do_force_ctrl := some true
              force_ctrl_method := some ("closed")
              wrench_prop_gains := some cfg.closed_loop_force.wrench_prop_gains
              force_ctrl_axes := some cfg.closed_loop_force.force_ctrl_axes }
  else if ctrl_type = ("hybrid_force_motion") then
    { c0 with motor_ctrl_mode := some ("manual"), gain_space := some ("task")
              do_motion_ctrl := some true
              task_prop_gains := some cfg.hybrid_force_motion.task_prop_gains
              task_deriv_gains := some cfg.hybrid_force_motion.task_deriv_gains
              do_inertial_comp := some true
              motion_ctrl_axes := some cfg.hybrid_force_motion.motion_ctrl_axes
              do_force_ctrl := some true
              force_ctrl_method := some ("closed")
              wrench_prop_gains := some cfg.hybrid_force_motion.wrench_prop_gains
              force_ctrl_axes := some cfg.hybrid_force_motion.force_ctrl_axes }
  else
    c0

/-- The manual-backend drive-property write: drive mode
`DOF_MODE_EFFORT`, stiffness and damping arrays zeroed in place. -/
def zero_passive_props (p : DofProps) : DofProps :=
  { driveMode := DriveMode.dofModeEffort
    stiffness := p.stiffness.map (fun _ => 0)
    damping := p.damping.map (fun _ => 0) }

/-- The drive-property side effect at the end of `parse_controller_spec`,
acting on the pair (first arm's actor props, second arm's actor props) of
one environment (the loop over environments is uniform).  The `gym`
branch iterates `zip(self.env_ptrs, self.franka_handles, ...)` only, so it
updates the first arm's actors alone; the `manual` branch iterates
`zip(self.env_ptrs, self.franka_handles, self.franka_handles_2)` and
updates both. -/
def apply_drive_props (c : CfgCtrl) (props : DofProps × DofProps) :
    DofProps × DofProps :=
  if c.motor_ctrl_mode = some ("gym") then
    ({ driveMode := DriveMode.dofModePos
       stiffness := c.joint_prop_gains.getD [] ++ c.gripper_prop_gains.getD []
       damping := c.joint_deriv_gains.getD [] ++ c.gripper_deriv_gains.getD [] },
     props.2)
  else if c.motor_ctrl_mode = some ("manual") then
    (zero_passive_props props.1, zero_passive_props props.2)
  else
    props

/-- `parse_controller_spec`: build the controller config for the given
mode name and apply the drive-property side effect. -/
def parse_controller_spec (ctrl_type : String) (cfg : CtrlCfg)
    (props : DofProps × DofProps) : CfgCtrl × (DofProps × DofProps) :=
  let c := cfg_ctrl_of_mode ctrl_type cfg
  (c, apply_drive_props c props)

/-- The eight mode names recognized by the `if/elif` chain. -/
def recognized_modes : List String :=
  [("gym_default"), ("joint_space_ik"), ("joint_space_id"),
   ("task_space_impedance"), ("operational_space_motion"),
   ("open_loop_force"), ("closed_loop_force"), ("hybrid_force_motion")]

/-- One indexed write of actuation data to the simulator
(`gym.set_dof_actuation_force_tensor_indexed`): the data tensor and the
actor-id index list of the single call. -/
structure DofWrite where
  data : List ℚ
  actor_ids : List ℤ
deriving DecidableEq

/-- The manual-backend path of `generate_ctrl_signals` + `_wrap_tensor`
for one environment row: concatenate the two arms' torque vectors
(`torch.cat((self.dof_torque, self.dof_torque_2), dim=1)`), concatenate
the two arms' actor-id lists, and issue exactly one indexed actuation
write covering both. -/
def generate_ctrl_signals_manual (dof_torque dof_torque_2 : List ℚ)
    (franka_actor_ids_sim franka_actor_ids_sim_2 : List ℤ) :
    List ℚ × List DofWrite :=
  let combined := dof_torque ++ dof_torque_2
  (combined, [{ data := combined
                actor_ids := franka_actor_ids_sim ++ franka_actor_ids_sim_2 }])

/-- A float value that may be NaN: `none` is the poison value produced by
dividing zero by zero and propagated by arithmetic. -/
abbrev OQ := Option ℚ

def oadd : OQ → OQ → OQ
  | some a, some b => some (a + b)
  | _, _ => none

def osub : OQ → OQ → OQ
  | some a, some b => some (a - b)
  | _, _ => none

def omul : OQ → OQ → OQ
  | some a, some b => some (a * b)
  | _, _ => none

/-- Division with the degenerate case poisoned.  (In IEEE arithmetic only
`0/0` is NaN; every division this model performs has a zero numerator
whenever the denominator is zero, so poisoning all `x/0` is faithful
here.) -/
def odiv : OQ → OQ → OQ
  | some a, some b => if b = 0 then none else some (a / b)
  | _, _ => none

/-- A quaternion whose components may be NaN. -/
structure OQuat where
  x : OQ
  y : OQ
  z : OQ
  w : OQ
deriving DecidableEq

def toOQuat (q : Quat) : OQuat :=
  ⟨some q.x, some q.y, some q.z, some q.w⟩

/-- Hamilton product (`torch_utils.quat_mul`, `xyzw` order) with NaN
propagation. -/
def oquat_mul (a b : OQuat) : OQuat :=
  { x := oadd (omul a.w b.x) (oadd (omul a.x b.w) (osub (omul a.y b.z) (omul a.z b.y)))
    y := oadd (osub (omul a.w b.y) (omul a.x b.z)) (oadd (omul a.y b.w) (omul a.z b.x))
    z := oadd (oadd (omul a.w b.z) (omul a.x b.y)) (osub (omul a.z b.w) (omul a.y b.x))
    w := osub (osub (omul a.w b.w) (omul a.x b.x)) (oadd (omul a.y b.y) (omul a.z b.z)) }

/-- The transcendental functions the embedding cannot compute exactly:
a Euclidean-norm oracle and half-angle sine/cosine oracles. -/
structure RotOracle where
  nrm : Vec3 → ℚ
  sin : ℚ → ℚ
  cos : ℚ → ℚ

/-- The facts about the oracles the theorems need: the norm of the zero
vector is zero, `sin 0 = 0`, `cos 0 = 1`. -/
def RotOracle.Valid (o : RotOracle) : Prop :=
  o.nrm ⟨0, 0, 0⟩ = 0 ∧ o.sin 0 = 0 ∧ o.cos 0 = 1

/-- `torch_utils.quat_from_angle_axis` on a possibly-NaN axis:
`(axis * sin(angle/2), cos(angle/2))`. -/
def quat_from_angle_axis (o : RotOracle) (angle : ℚ) (ax ay az : OQ) : OQuat :=
  { x := omul ax (some (o.sin (angle / 2)))
    y := omul ay (some (o.sin (angle / 2)))
    z := omul az (some (o.sin (angle / 2)))
    w := some (o.cos (angle / 2)) }

/-- The `cfg_task.rl` fields consumed by the rotation-target computation
of `_apply_actions_as_ctrl_targets`. -/
structure RlRotCfg where
  clamp_rot : Bool
  clamp_rot_thresh : ℚ
  rot_action_scale : Vec3
deriving DecidableEq

/-- `rot_actions @ torch.diag(rot_action_scale)` when `do_scale` is set. -/
def scale_rot (do_scale : Bool) (scale v : Vec3) : Vec3 :=
  if do_scale then ⟨v.x * scale.x, v.y * scale.y, v.z * scale.z⟩ else v

/-- The rotation-target computation of `_apply_actions_as_ctrl_targets`
for one arm: scale the rotation action, take its norm as `angle`, divide
by `angle` to normalize the axis (NaN when the norm is zero), build the
axis-angle quaternion, substitute the identity quaternion when
`clamp_rot` is set and `angle` is not above `clamp_rot_thresh`, and
left-multiply onto the current fingertip-midpoint orientation. -/
def apply_rot_action (o : RotOracle) (cfg : RlRotCfg) (do_scale : Bool)
    (rot_actions : Vec3) (fingertip_midpoint_quat : Quat) : OQuat :=
  let ra := scale_rot do_scale cfg.rot_action_scale rot_actions
  let angle := o.nrm ra
  let rot_actions_quat := quat_from_angle_axis o angle
    (odiv (some ra.x) (some angle)) (odiv (some ra.y) (some angle))
    (odiv (some ra.z) (some angle))
  let rot_actions_quat :=
    if cfg.clamp_rot then
      (if angle > cfg.clamp_rot_thresh then rot_actions_quat else toOQuat ⟨0, 0, 0, 1⟩)
    else rot_actions_quat
  oquat_mul rot_actions_quat (toOQuat fingertip_midpoint_quat)

/-- Both arms' rotation targets: arm 1 reads action components 3..5,
arm 2 reads components 15..17, each against its own current
fingertip-midpoint orientation. -/
def apply_actions_rot_targets (o : RotOracle) (cfg : RlRotCfg) (do_scale : Bool)
    (actions : ℕ → ℚ) (q1 q2 : Quat) : OQuat × OQuat :=
  (apply_rot_action o cfg do_scale ⟨actions 3, actions 4, actions 5⟩ q1,
   apply_rot_action o cfg do_scale ⟨actions 15, actions 16, actions 17⟩ q2)

/-- Claim C10: on the concatenated tensors built by
`acquire_base_tensors`, the arm-2 views (link `body_id_2 - 2`, columns
9:16) select exactly the second arm's own simulator data at the same
arm-local link index and arm-DOF columns 0:7 that the arm-1 views (link
`body_id - 1`, columns 0:7) select from the first arm's data, for the
hand (bodies 8 / 20), the left finger (bodies 9 / 21), and the 7×7 arm
block of the mass matrix. -/
theorem claim_C10_second_arm_index_arithmetic (s : SimState)
    (r : Fin 6) (c : Fin 7) (i j : Fin 7) :
    hand_jacobian_2 (acquire_base_tensors s) r c = s.jac2 7 r c
    ∧ hand_jacobian (acquire_base_tensors s) r c = s.jac1 7 r c
    ∧ left_finger_jacobian_2 (acquire_base_tensors s) r c = s.jac2 8 r c
    ∧ left_finger_jacobian (acquire_base_tensors s) r c = s.jac1 8 r c
    ∧ arm_mass_matrix_2 (acquire_base_tensors s) i j = s.mm2 i j
    ∧ arm_mass_matrix (acquire_base_tensors s) i j = s.mm1 i j := by
  refine ⟨?_, ?_, ?_, ?_, ?_, ?_⟩
  · simp only [hand_jacobian_2, acquire_base_tensors, np_concat_axis1,
      np_concat_axis3, hand_body_id_env_2]
    norm_num
  · simp only [hand_jacobian, acquire_base_tensors, np_concat_axis1,
      np_concat_axis3, hand_body_id_env]
    norm_num
    intro h
    exact absurd c.isLt (by omega)
  · simp only [left_finger_jacobian_2, acquire_base_tensors, np_concat_axis1,
      np_concat_axis3, left_finger_body_id_env_2]
    norm_num
  · simp only [left_finger_jacobian, acquire_base_tensors, np_concat_axis1,
      np_concat_axis3, left_finger_body_id_env]
    norm_num
    intro h
    exact absurd c.isLt (by omega)
  · simp only [arm_mass_matrix_2, acquire_base_tensors, np_concat_mm]
    rw [if_neg (by omega), Nat.add_sub_cancel_left]
  · simp only [arm_mass_matrix, acquire_base_tensors, np_concat_mm]
    rw [if_pos (by omega)]

/-- Claim C9: translating every body position in the scene by a constant
vector `c` (orientations and velocities unchanged) translates both
derived fingertip-midpoint positions by exactly `c` and leaves the
derived fingertip-midpoint orientations, linear velocities, and Jacobians
unchanged. -/
theorem claim_C9_translation_invariance (a : AcquiredTensors) (s : SimState)
    (len : ℚ) (c : Vec3) :
    (refresh_base_tensors a (translate_scene s c) len).fingertip_midpoint_pos
      = vadd ((refresh_base_tensors a s len).fingertip_midpoint_pos) c
    ∧ (refresh_base_tensors a (translate_scene s c) len).fingertip_midpoint_quat
      = (refresh_base_tensors a s len).fingertip_midpoint_quat
    ∧ (refresh_base_tensors a (translate_scene s c) len).fingertip_midpoint_linvel
      = (refresh_base_tensors a s len).fingertip_midpoint_linvel
    ∧ (refresh_base_tensors a (translate_scene s c) len).fingertip_midpoint_jacobian
      = (refresh_base_tensors a s len).fingertip_midpoint_jacobian
    ∧ (refresh_base_tensors a (translate_scene s c) len).fingertip_midpoint_pos_2
      = vadd ((refresh_base_tensors a s len).fingertip_midpoint_pos_2) c
    ∧ (refresh_base_tensors a (translate_scene s c) len).fingertip_midpoint_quat_2
      = (refresh_base_tensors a s len).fingertip_midpoint_quat_2
    ∧ (refresh_base_tensors a (translate_scene s c) len).fingertip_midpoint_linvel_2
      = (refresh_base_tensors a s len).fingertip_midpoint_linvel_2
    ∧ (refresh_base_tensors a (translate_scene s c) len).fingertip_midpoint_jacobian_2
      = (refresh_base_tensors a s len).fingertip_midpoint_jacobian_2 := by
  refine ⟨?_, rfl, ?_, rfl, ?_, rfl, ?_, rfl⟩ <;>
    simp only [refresh_base_tensors, translate_scene, translate_bodies,
      translate_frame, fingertip_midpoint_linvel_of, fingertip_midpoint_pos_of,
      finger_midpoint_pos, translate_along_local_z, quat_rotate, vadd, vsub,
      smulV, cross, dotV, Vec3.mk.injEq] <;>
    refine ⟨by ring, by ring, by ring⟩

/-- A body at rest at the origin with identity orientation. -/
def frame0 : Frame :=
  { pos := ⟨0, 0, 0⟩, quat := ⟨0, 0, 0, 1⟩, linvel := ⟨0, 0, 0⟩, angvel := ⟨0, 0, 0⟩ }

/-- An arm whose four bodies are all `frame0`. -/
def bodies0 : ArmBodies :=
  { hand := frame0, left_finger := frame0, right_finger := frame0
    fingertip_centered := frame0 }

/-- The simulator state at acquisition time: every Jacobian and
mass-matrix entry is `0`. -/
def sim_acquire : SimState :=
  { bodies1 := bodies0, bodies2 := bodies0
    jac1 := fun _ _ _ => 0, jac2 := fun _ _ _ => 0
    mm1 := fun _ _ => 0, mm2 := fun _ _ => 0 }

/-- The simulator state after the next step's `gym.refresh_*` calls:
every Jacobian and mass-matrix entry has been refreshed to `1`. -/
def sim_refreshed : SimState :=
  { sim_acquire with
    jac1 := fun _ _ _ => 1, jac2 := fun _ _ _ => 1
    mm1 := fun _ _ => 1, mm2 := fun _ _ => 1 }

/-- Claim C1: the per-arm mass-matrix and Jacobian views do NOT reflect
the simulator tensors refreshed by `refresh_base_tensors`.  Acquiring at
a state whose entries are all `0` and then refreshing at a state whose
entries are all `1`, every view — including the fingertip-midpoint
Jacobians recomputed inside `refresh_base_tensors` — still reads the
acquisition-time `0`, while the simulator's refreshed tensors read `1`
(so the averaged fresh value would be `1`).  The numpy concatenation in
`acquire_base_tensors` copies the buffers, severing the aliasing that the
per-step `gym.refresh_jacobian_tensors` / `gym.refresh_mass_matrix_tensors`
calls rely on. -/
theorem claim_C1_views_stale_after_refresh :
    arm_mass_matrix (acquire_base_tensors sim_acquire) 0 0 = 0
    ∧ arm_mass_matrix_2 (acquire_base_tensors sim_acquire) 0 0 = 0
    ∧ hand_jacobian (acquire_base_tensors sim_acquire) 0 0 = 0
    ∧ hand_jacobian_2 (acquire_base_tensors sim_acquire) 0 0 = 0
    ∧ (refresh_base_tensors (acquire_base_tensors sim_acquire) sim_refreshed
        1).fingertip_midpoint_jacobian 0 0 = 0
    ∧ (refresh_base_tensors (acquire_base_tensors sim_acquire) sim_refreshed
        1).fingertip_midpoint_jacobian_2 0 0 = 0
    ∧ sim_refreshed.mm1 0 0 = 1
    ∧ sim_refreshed.mm2 0 0 = 1
    ∧ sim_refreshed.jac1 7 0 0 = 1
    ∧ sim_refreshed.jac2 7 0 0 = 1
    ∧ (sim_refreshed.jac1 8 0 0 + sim_refreshed.jac1 9 0 0) * (1 / 2) = 1 := by
  refine ⟨by decide, by decide, by decide, by decide, ?_, ?_, rfl, rfl, rfl, rfl, ?_⟩
  · norm_num [refresh_base_tensors, left_finger_jacobian, right_finger_jacobian,
      acquire_base_tensors, np_concat_axis1, np_concat_axis3,
      left_finger_body_id_env, right_finger_body_id_env, sim_acquire]
  · norm_num [refresh_base_tensors, left_finger_jacobian_2, right_finger_jacobian_2,
      acquire_base_tensors, np_concat_axis1, np_concat_axis3,
      left_finger_body_id_env_2, right_finger_body_id_env_2, sim_acquire]
  · norm_num [sim_refreshed]

/-- The conjunction of the spec's four fingertip-midpoint formulas for
both arms, stated against the output of `refresh_base_tensors`: position
is the fingertip midpoint offset along the hand's local z-axis by the
finger length, orientation equals the hand's orientation, linear velocity
is `v_hand + ω_hand × (p_mid − p_hand)`, and the Jacobian is the average
of the left- and right-finger Jacobians. -/
def MidpointFormulas (a : AcquiredTensors) (s : SimState) (len : ℚ) : Prop :=
  (refresh_base_tensors a s len).fingertip_midpoint_pos
    = translate_along_local_z
        (smulV (1 / 2) (vadd s.bodies1.left_finger.pos s.bodies1.right_finger.pos))
        s.bodies1.hand.quat len
  ∧ (refresh_base_tensors a s len).fingertip_midpoint_quat = s.bodies1.hand.quat
  ∧ (refresh_base_tensors a s len).fingertip_midpoint_linvel
    = vadd s.bodies1.hand.linvel
        (cross s.bodies1.hand.angvel
          (vsub ((refresh_base_tensors a s len).fingertip_midpoint_pos)
            s.bodies1.hand.pos))
  ∧ (refresh_base_tensors a s len).fingertip_midpoint_jacobian
    = (fun r c => (left_finger_jacobian a r c + right_finger_jacobian a r c) * (1 / 2))
  ∧ (refresh_base_tensors a s len).fingertip_midpoint_pos_2
    = translate_along_local_z
        (smulV (1 / 2) (vadd s.bodies2.left_finger.pos s.bodies2.right_finger.pos))
        s.bodies2.hand.quat len
  ∧ (refresh_base_tensors a s len).fingertip_midpoint_quat_2 = s.bodies2.hand.quat
  ∧ (refresh_base_tensors a s len).fingertip_midpoint_linvel_2
    = vadd s.bodies2.hand.linvel
        (cross s.bodies2.hand.angvel
          (vsub ((refresh_base_tensors a s len).fingertip_midpoint_pos_2)
            s.bodies2.hand.pos))
  ∧ (refresh_base_tensors a s len).fingertip_midpoint_jacobian_2
    = (fun r c => (left_finger_jacobian_2 a r c + right_finger_jacobian_2 a r c) * (1 / 2))

/-- Claim C6: for every state refresh and each arm, the derived
fingertip-midpoint frame satisfies the spec's formulas, assuming the
fingertip-centered body is rigidly attached to the hand (the code reads
the fingertip-centered body where the spec says "hand"; the URDF making
them rigid with identity relative rotation is not under src). -/
theorem claim_C6_midpoint_frame_formulas (a : AcquiredTensors) (s : SimState)
    (len : ℚ)
    (h1 : rigidly_attached s.bodies1.hand s.bodies1.fingertip_centered)
    (h2 : rigidly_attached s.bodies2.hand s.bodies2.fingertip_centered) :
    MidpointFormulas a s len := by
  obtain ⟨hq1, ha1, hv1⟩ := h1
  obtain ⟨hq2, ha2, hv2⟩ := h2
  refine ⟨rfl, hq1, ?_, rfl, rfl, hq2, ?_, rfl⟩
  · simp only [refresh_base_tensors, fingertip_midpoint_linvel_of, hv1, ha1]
    simp only [vadd, vsub, cross, Vec3.mk.injEq]
    refine ⟨by ring, by ring, by ring⟩
  · simp only [refresh_base_tensors, fingertip_midpoint_linvel_of, hv2, ha2]
    simp only [vadd, vsub, cross, Vec3.mk.injEq]
    refine ⟨by ring, by ring, by ring⟩

/-- A hand translating along x while spinning about z. -/
def hand_frame_w : Frame :=
  { pos := ⟨0, 0, 0⟩, quat := ⟨0, 0, 0, 1⟩, linvel := ⟨1, 0, 0⟩, angvel := ⟨0, 0, 1⟩ }

/-- A fingertip-centered body rigidly attached to `hand_frame_w`:
same orientation and angular velocity, and linear velocity
`v_hand + ω_hand × (p_fc − p_hand)`. -/
def fc_frame_w : Frame :=
  { pos := ⟨0, 1, 0⟩, quat := ⟨0, 0, 0, 1⟩, linvel := ⟨0, 0, 0⟩, angvel := ⟨0, 0, 1⟩ }

/-- An arm with the moving hand and rigidly attached fingertip-centered
body. -/
def bodies_w : ArmBodies :=
  { hand := hand_frame_w, left_finger := frame0, right_finger := frame0
    fingertip_centered := fc_frame_w }

/-- A concrete simulator state satisfying the rigid-attachment
hypotheses on both arms. -/
def sim_w : SimState :=
  { bodies1 := bodies_w, bodies2 := bodies_w
    jac1 := fun _ _ _ => 0, jac2 := fun _ _ _ => 0
    mm1 := fun _ _ => 0, mm2 := fun _ _ => 0 }

/-- Claim C6 witness: the rigid-attachment hypotheses hold at `sim_w`,
and the midpoint formulas follow there. -/
theorem claim_C6_witness :
    rigidly_attached sim_w.bodies1.hand sim_w.bodies1.fingertip_centered
    ∧ rigidly_attached sim_w.bodies2.hand sim_w.bodies2.fingertip_centered
    ∧ MidpointFormulas (acquire_base_tensors sim_w) sim_w 1 := by
  have hr : rigidly_attached sim_w.bodies1.hand sim_w.bodies1.fingertip_centered := by
    unfold rigidly_attached
    refine ⟨rfl, rfl, ?_⟩
    norm_num [sim_w, bodies_w, hand_frame_w, fc_frame_w, vadd, cross, vsub,
      Vec3.mk.injEq]
  exact ⟨hr, hr,
    claim_C6_midpoint_frame_formulas (acquire_base_tensors sim_w) sim_w 1 hr hr⟩

/-- A sample `cfg_task.ctrl` subtree.  Its hybrid gain bundle carries a
motion mask and a force mask that are both active on axis 0. -/
def ctrl_cfg_sample : CtrlCfg :=
  { all :=
      { jacobian_type := ("geometric")
        gripper_prop_gains := [500, 500], gripper_deriv_gains := [2, 2] }
    gym_default :=
      { ik_method := ("dls")
        joint_prop_gains := [40, 40, 40, 40, 40, 40, 40]
        joint_deriv_gains := [8, 8, 8, 8, 8, 8, 8]
        gripper_prop_gains := [500, 500], gripper_deriv_gains := [2, 2] }
    joint_space_ik :=
      { ik_method := ("dls")
        joint_prop_gains := [1, 1, 1, 1, 1, 1, 1]
        joint_deriv_gains := [1, 1, 1, 1, 1, 1, 1] }
    joint_space_id :=
      { ik_method := ("dls")
        joint_prop_gains := [40, 40, 40, 40, 40, 40, 40]
        joint_deriv_gains := [8, 8, 8, 8, 8, 8, 8] }
    task_space_impedance :=
      { task_prop_gains := [40, 40, 40, 40, 40, 40]
        task_deriv_gains := [8, 8, 8, 8, 8, 8]
        motion_ctrl_axes := [1, 1, 1, 1, 1, 1] }
    operational_space_motion :=
      { task_prop_gains := [40, 40, 40, 40, 40, 40]
        task_deriv_gains := [8, 8, 8, 8, 8, 8]
        motion_ctrl_axes := [1, 1, 1, 1, 1, 1] }
    open_loop_force := { force_ctrl_axes := [0, 0, 1, 0, 0, 0] }
    closed_loop_force :=
      { wrench_prop_gains := [1 / 10, 1 / 10, 1 / 10, 1 / 10, 1 / 10, 1 / 10]
        force_ctrl_axes := [0, 0, 1, 0, 0, 0] }
    hybrid_force_motion :=
      { task_prop_gains := [40, 40, 40, 40, 40, 40]
        task_deriv_gains := [8, 8, 8, 8, 8, 8]
        motion_ctrl_axes := [1, 1, 1, 1, 1, 1]
        wrench_prop_gains := [1 / 10, 1 / 10, 1 / 10, 1 / 10, 1 / 10, 1 / 10]
        force_ctrl_axes := [1, 0, 0, 0, 0, 0] } }

/-- Sample DOF properties of the first arm's actor before the parser
runs (drive mode `DOF_MODE_NONE` from asset options). -/
def props_a : DofProps :=
  { driveMode := DriveMode.dofModeNone, stiffness := [3, 3], damping := [4, 4] }

/-- Sample DOF properties of the second arm's actor before the parser
runs. -/
def props_b : DofProps :=
  { driveMode := DriveMode.dofModeNone, stiffness := [5, 5], damping := [6, 6] }

/-- Claim C2 counterexample: for the unrecognized mode name
`bogus_mode`, `parse_controller_spec` raises nothing: it silently
returns the base config — every mode-dependent field still `None` — and
leaves both arms' drive properties untouched. -/
theorem claim_C2_counterexample :
    parse_controller_spec ("bogus_mode") ctrl_cfg_sample (props_a, props_b)
      = (init_cfg_ctrl ctrl_cfg_sample, (props_a, props_b))
    ∧ (parse_controller_spec ("bogus_mode") ctrl_cfg_sample
        (props_a, props_b)).1.motor_ctrl_mode = none := by
  exact ⟨rfl, rfl⟩

/-- Claim C2 (amended): for every mode name outside the recognized set,
`parse_controller_spec` returns the base config with every
mode-dependent field unset (`None`) and applies no drive-property side
effect; no error is raised. -/
theorem claim_C2_unrecognized_mode (t : String) (h : t ∉ recognized_modes)
    (cfg : CtrlCfg) (p : DofProps × DofProps) :
    parse_controller_spec t cfg p = (init_cfg_ctrl cfg, p) := by
  simp only [recognized_modes, List.mem_cons, List.not_mem_nil, or_false,
    not_or] at h
  obtain ⟨h1, h2, h3, h4, h5, h6, h7, h8⟩ := h
  simp [parse_controller_spec, cfg_ctrl_of_mode, apply_drive_props,
    init_cfg_ctrl, h1, h2, h3, h4, h5, h6, h7, h8]

/-- Claim C2 witness: `bogus_mode` is outside the recognized set, and the
amended behavior holds there. -/
theorem claim_C2_witness :
    ("bogus_mode") ∉ recognized_modes
    ∧ parse_controller_spec ("bogus_mode") ctrl_cfg_sample (props_a, props_b)
        = (init_cfg_ctrl ctrl_cfg_sample, (props_a, props_b)) :=
  ⟨by decide, claim_C2_unrecognized_mode ("bogus_mode") (by decide)
    ctrl_cfg_sample (props_a, props_b)⟩

/-- Claim C3 counterexample: with the native-PD backend
(`gym_default`), the side effect reaches only the first arm's actor —
the first arm's drive mode becomes position, but the second arm's DOF
properties are returned exactly as they came in, still
`DOF_MODE_NONE`. -/
theorem claim_C3_counterexample :
    (parse_controller_spec ("gym_default") ctrl_cfg_sample
      (props_a, props_b)).2.1.driveMode = DriveMode.dofModePos
    ∧ (parse_controller_spec ("gym_default") ctrl_cfg_sample
        (props_a, props_b)).2.2 = props_b
    ∧ props_b.driveMode = DriveMode.dofModeNone := by
  exact ⟨rfl, rfl, rfl⟩

/-- Claim C3 (amended): the manual backend applies its side effect to
both arms' actors (drive mode effort, stiffness and damping zeroed),
while the native-PD backend sets drive mode position and pushes the
concatenated joint+gripper gains into the first arm's actor only,
leaving the second arm's DOF properties unchanged. -/
theorem claim_C3_drive_prop_side_effect (cfg : CtrlCfg) (p1 p2 : DofProps) :
    (parse_controller_spec ("gym_default") cfg (p1, p2)).2
      = ({ driveMode := DriveMode.dofModePos
           stiffness := cfg.gym_default.joint_prop_gains ++ cfg.gym_default.gripper_prop_gains
           damping := cfg.gym_default.joint_deriv_gains ++ cfg.gym_default.gripper_deriv_gains },
         p2)
    ∧ (parse_controller_spec ("joint_space_ik") cfg (p1, p2)).2
      = (zero_passive_props p1, zero_passive_props p2)
    ∧ (parse_controller_spec ("joint_space_id") cfg (p1, p2)).2
      = (zero_passive_props p1, zero_passive_props p2)
    ∧ (parse_controller_spec ("task_space_impedance") cfg (p1, p2)).2
      = (zero_passive_props p1, zero_passive_props p2)
    ∧ (parse_controller_spec ("operational_space_motion") cfg (p1, p2)).2
      = (zero_passive_props p1, zero_passive_props p2)
    ∧ (parse_controller_spec ("open_loop_force") cfg (p1, p2)).2
      = (zero_passive_props p1, zero_passive_props p2)
    ∧ (parse_controller_spec ("closed_loop_force") cfg (p1, p2)).2
      = (zero_passive_props p1, zero_passive_props p2)
    ∧ (parse_controller_spec ("hybrid_force_motion") cfg (p1, p2)).2
      = (zero_passive_props p1, zero_passive_props p2) := by
  exact ⟨rfl, rfl, rfl, rfl, rfl, rfl, rfl, rfl⟩

/-- Claim C5 counterexample: `parse_controller_spec` accepts the sample
hybrid gain bundle and produces a motion-control mask and a
force-control mask that are BOTH `1` on axis 0. -/
theorem claim_C5_counterexample :
    ((parse_controller_spec ("hybrid_force_motion") ctrl_cfg_sample
        (props_a, props_b)).1.motion_ctrl_axes.getD []).getD 0 0 = 1
    ∧ ((parse_controller_spec ("hybrid_force_motion") ctrl_cfg_sample
        (props_a, props_b)).1.force_ctrl_axes.getD []).getD 0 0 = 1 := by
  exact ⟨rfl, rfl⟩

/-- Claim C5 (amended): the parser never enforces per-axis
complementarity.  For the seven non-hybrid modes at most one of the two
masks is ever set (so "both one" cannot arise); for
`hybrid_force_motion` both masks are copied verbatim from the supplied
gain bundle, so they are complementary exactly when the bundle is. -/
theorem claim_C5_axis_masks (cfg : CtrlCfg) :
    (cfg_ctrl_of_mode ("gym_default") cfg).motion_ctrl_axes = none
    ∧ (cfg_ctrl_of_mode ("gym_default") cfg).force_ctrl_axes = none
    ∧ (cfg_ctrl_of_mode ("joint_space_ik") cfg).motion_ctrl_axes = none
    ∧ (cfg_ctrl_of_mode ("joint_space_ik") cfg).force_ctrl_axes = none
    ∧ (cfg_ctrl_of_mode ("joint_space_id") cfg).motion_ctrl_axes = none
    ∧ (cfg_ctrl_of_mode ("joint_space_id") cfg).force_ctrl_axes = none
    ∧ (cfg_ctrl_of_mode ("task_space_impedance") cfg).force_ctrl_axes = none
    ∧ (cfg_ctrl_of_mode ("operational_space_motion") cfg).force_ctrl_axes = none
    ∧ (cfg_ctrl_of_mode ("open_loop_force") cfg).motion_ctrl_axes = none
    ∧ (cfg_ctrl_of_mode ("closed_loop_force") cfg).motion_ctrl_axes = none
    ∧ (cfg_ctrl_of_mode ("hybrid_force_motion") cfg).motion_ctrl_axes
        = some cfg.hybrid_force_motion.motion_ctrl_axes
    ∧ (cfg_ctrl_of_mode ("hybrid_force_motion") cfg).force_ctrl_axes
        = some cfg.hybrid_force_motion.force_ctrl_axes := by
  exact ⟨rfl, rfl, rfl, rfl, rfl, rfl, rfl, rfl, rfl, rfl, rfl, rfl⟩

/-- Claim C8 counterexample: the mode table's force-control column reads
"no" for both `joint_space_ik` and `task_space_impedance`, yet the code
renders it as unset (`None`) for the former and as the populated value
`False` for the latter (and as `None` for `gym_default` too) — so the
config is not populated "exactly per the mode table" with
"not applicable" distinguishable from "disabled". -/
theorem claim_C8_counterexample :
    (cfg_ctrl_of_mode ("joint_space_ik") ctrl_cfg_sample).do_force_ctrl = none
    ∧ (cfg_ctrl_of_mode ("task_space_impedance") ctrl_cfg_sample).do_force_ctrl
        = some false
    ∧ (cfg_ctrl_of_mode ("gym_default") ctrl_cfg_sample).do_force_ctrl = none := by
  exact ⟨rfl, rfl, rfl⟩

/-- Claim C8 (amended): the exact config produced for each of the eight
modes.  The table's backend / gain-space / inertial-compensation /
force-control columns hold, with inertial "n/a" rendered as `None`,
inertial "yes"/"no" as `True`/`False`, and force-control "no" rendered
inconsistently: `None` for the three joint-space modes, explicit `False`
for the two task-space motion modes.  All other fields not relevant to a
mode are left `None`. -/
theorem claim_C8_mode_table (cfg : CtrlCfg) :
    cfg_ctrl_of_mode ("gym_default") cfg
      = { jacobian_type := some cfg.all.jacobian_type
          gripper_prop_gains := some cfg.gym_default.gripper_prop_gains
          gripper_deriv_gains := some cfg.gym_default.gripper_deriv_gains
          motor_ctrl_mode := some ("gym"), gain_space := some ("joint")
          ik_method := some cfg.gym_default.ik_method
          joint_prop_gains := some cfg.gym_default.joint_prop_gains
          joint_deriv_gains := some cfg.gym_default.joint_deriv_gains
          do_motion_ctrl := none, task_prop_gains := none, task_deriv_gains := none
          do_inertial_comp := none, motion_ctrl_axes := none, do_force_ctrl := none
          force_ctrl_method := none, wrench_prop_gains := none, force_ctrl_axes := none }
    ∧ cfg_ctrl_of_mode ("joint_space_ik") cfg
      = { jacobian_type := some cfg.all.jacobian_type
          gripper_prop_gains := some cfg.all.gripper_prop_gains
          gripper_deriv_gains := some cfg.all.gripper_deriv_gains
          motor_ctrl_mode := some ("manual"), gain_space := some ("joint")
          ik_method := some cfg.joint_space_ik.ik_method
          joint_prop_gains := some cfg.joint_space_ik.joint_prop_gains
          joint_deriv_gains := some cfg.joint_space_ik.joint_deriv_gains
          do_motion_ctrl := none, task_prop_gains := none, task_deriv_gains := none
          do_inertial_comp := some false, motion_ctrl_axes := none
          do_force_ctrl := none, force_ctrl_method := none
          wrench_prop_gains := none, force_ctrl_axes := none }
    ∧ cfg_ctrl_of_mode ("joint_space_id") cfg
      = { jacobian_type := some cfg.all.jacobian_type
          gripper_prop_gains := some cfg.all.gripper_prop_gains
          gripper_deriv_gains := some cfg.all.gripper_deriv_gains
          motor_ctrl_mode := some ("manual"), gain_space := some ("joint")
          ik_method := some cfg.joint_space_id.ik_method
          joint_prop_gains := some cfg.joint_space_id.joint_prop_gains
          joint_deriv_gains := some cfg.joint_space_id.joint_deriv_gains
          do_motion_ctrl := none, task_prop_gains := none, task_deriv_gains := none
          do_inertial_comp := some true, motion_ctrl_axes := none
          do_force_ctrl := none, force_ctrl_method := none
          wrench_prop_gains := none, force_ctrl_axes := none }
    ∧ cfg_ctrl_of_mode ("task_space_impedance") cfg
      = { jacobian_type := some cfg.all.jacobian_type
          gripper_prop_gains := some cfg.all.gripper_prop_gains
          gripper_deriv_gains := some cfg.all.gripper_deriv_gains
          motor_ctrl_mode := some ("manual"), gain_space := some ("task")
          ik_method := none, joint_prop_gains := none, joint_deriv_gains := none
          do_motion_ctrl := some true
          task_prop_gains := some cfg.task_space_impedance.task_prop_gains
          task_deriv_gains := some cfg.task_space_impedance.task_deriv_gains
          do_inertial_comp := some false
          motion_ctrl_axes := some cfg.task_space_impedance.motion_ctrl_axes
          do_force_ctrl := some false, force_ctrl_method := none
          wrench_prop_gains := none, force_ctrl_axes := none }
    ∧ cfg_ctrl_of_mode ("operational_space_motion") cfg
      = { jacobian_type := some cfg.all.jacobian_type
          gripper_prop_gains := some cfg.all.gripper_prop_gains
          gripper_deriv_gains := some cfg.all.gripper_deriv_gains
          motor_ctrl_mode := some ("manual"), gain_space := some ("task")
          ik_method := none, joint_prop_gains := none, joint_deriv_gains := none
          do_motion_ctrl := some true
          task_prop_gains := some cfg.operational_space_motion.task_prop_gains
          task_deriv_gains := some cfg.operational_space_motion.task_deriv_gains
          do_inertial_comp := some true
          motion_ctrl_axes := some cfg.operational_space_motion.motion_ctrl_axes
          do_force_ctrl := some false, force_ctrl_method := none
          wrench_prop_gains := none, force_ctrl_axes := none }
    ∧ cfg_ctrl_of_mode ("open_loop_force") cfg
      = { jacobian_type := some cfg.all.jacobian_type
          gripper_prop_gains := some cfg.all.gripper_prop_gains
          gripper_deriv_gains := some cfg.all.gripper_deriv_gains
          motor_ctrl_mode := some ("manual"), gain_space := some ("task")
          ik_method := none, joint_prop_gains := none, joint_deriv_gains := none
          do_motion_ctrl := some false, task_prop_gains := none
          task_deriv_gains := none, do_inertial_comp := none
          motion_ctrl_axes := none, do_force_ctrl := some true
          force_ctrl_method := some ("open"), wrench_prop_gains := none
          force_ctrl_axes := some cfg.open_loop_force.force_ctrl_axes }
    ∧ cfg_ctrl_of_mode ("closed_loop_force") cfg
      = { jacobian_type := some cfg.all.jacobian_type
          gripper_prop_gains := some cfg.all.gripper_prop_gains
          gripper_deriv_gains := some cfg.all.gripper_deriv_gains
          motor_ctrl_mode := some ("manual"), gain_space := some ("task")
          ik_method := none, joint_prop_gains := none, joint_deriv_gains := none
          do_motion_ctrl := some false, task_prop_gains := none
          task_deriv_gains := none, do_inertial_comp := none
          motion_ctrl_axes := none, do_force_ctrl := some true
          force_ctrl_method := some ("closed")
          wrench_prop_gains := some cfg.closed_loop_force.wrench_prop_gains
          force_ctrl_axes := some cfg.closed_loop_force.force_ctrl_axes }
    ∧ cfg_ctrl_of_mode ("hybrid_force_motion") cfg
      = { jacobian_type := some cfg.all.jacobian_type
          gripper_prop_gains := some cfg.all.gripper_prop_gains
          gripper_deriv_gains := some cfg.all.gripper_deriv_gains
          motor_ctrl_mode := some ("manual"), gain_space := some ("task")
          ik_method := none, joint_prop_gains := none, joint_deriv_gains := none
          do_motion_ctrl := some true
          task_prop_gains := some cfg.hybrid_force_motion.task_prop_gains
          task_deriv_gains := some cfg.hybrid_force_motion.task_deriv_gains
          do_inertial_comp := some true
          motion_ctrl_axes := some cfg.hybrid_force_motion.motion_ctrl_axes
          do_force_ctrl := some true, force_ctrl_method := some ("closed")
          wrench_prop_gains := some cfg.hybrid_force_motion.wrench_prop_gains
          force_ctrl_axes := some cfg.hybrid_force_motion.force_ctrl_axes } := by
  exact ⟨rfl, rfl, rfl, rfl, rfl, rfl, rfl, rfl⟩

/-- Claim C7: the manual-mode dispatcher preserves per-arm structure:
for torque vectors of lengths `n1` and `n2`, the combined vector has
length `n1 + n2`, entry `i` equals arm 1's entry `i` for `i < n1`, entry
`n1 + j` equals arm 2's entry `j`, and the combined vector is issued in
exactly one indexed actuation write whose index list is the
concatenation of both arms' actor ids. -/
theorem claim_C7_dispatcher (dof_torque dof_torque_2 : List ℚ)
    (ids1 ids2 : List ℤ) (n1 n2 : ℕ)
    (h1 : dof_torque.length = n1) (h2 : dof_torque_2.length = n2) :
    (generate_ctrl_signals_manual dof_torque dof_torque_2 ids1 ids2).1.length
      = n1 + n2
    ∧ (∀ i, i < n1 →
        (generate_ctrl_signals_manual dof_torque dof_torque_2 ids1 ids2).1.getD i 0
          = dof_torque.getD i 0)
    ∧ (∀ j,
        (generate_ctrl_signals_manual dof_torque dof_torque_2 ids1 ids2).1.getD (n1 + j) 0
          = dof_torque_2.getD j 0)
    ∧ (generate_ctrl_signals_manual dof_torque dof_torque_2 ids1 ids2).2
      = [{ data := (generate_ctrl_signals_manual dof_torque dof_torque_2 ids1 ids2).1
           actor_ids := ids1 ++ ids2 }] := by
  refine ⟨?_, ?_, ?_, rfl⟩
  · simp [generate_ctrl_signals_manual, h1, h2]
  · intro i hi
    exact List.getD_append _ _ _ _ (by omega)
  · intro j
    have hge : dof_torque.length ≤ n1 + j := by omega
    calc (generate_ctrl_signals_manual dof_torque dof_torque_2 ids1 ids2).1.getD (n1 + j) 0
        = dof_torque_2.getD (n1 + j - dof_torque.length) 0 :=
          List.getD_append_right _ _ _ _ hge
      _ = dof_torque_2.getD j 0 := by rw [h1, Nat.add_sub_cancel_left]

/-- Claim C7 witness: the dispatcher properties at two concrete torque
vectors of lengths 2 and 3. -/
theorem claim_C7_witness :
    ([1, 2] : List ℚ).length = 2 ∧ ([3, 4, 5] : List ℚ).length = 3
    ∧ ((generate_ctrl_signals_manual [1, 2] [3, 4, 5] [0, 5] [1, 6]).1.length = 2 + 3
      ∧ (∀ i, i < 2 →
          (generate_ctrl_signals_manual [1, 2] [3, 4, 5] [0, 5] [1, 6]).1.getD i 0
            = ([1, 2] : List ℚ).getD i 0)
      ∧ (∀ j,
          (generate_ctrl_signals_manual [1, 2] [3, 4, 5] [0, 5] [1, 6]).1.getD (2 + j) 0
            = ([3, 4, 5] : List ℚ).getD j 0)
      ∧ (generate_ctrl_signals_manual [1, 2] [3, 4, 5] [0, 5] [1, 6]).2
        = [{ data := (generate_ctrl_signals_manual [1, 2] [3, 4, 5] [0, 5] [1, 6]).1
             actor_ids := ([0, 5] : List ℤ) ++ [1, 6] }]) :=
  ⟨rfl, rfl, claim_C7_dispatcher [1, 2] [3, 4, 5] [0, 5] [1, 6] 2 3 rfl rfl⟩

/-- Multiplying by the identity quaternion `(0, 0, 0, 1)` on the left is
the identity on NaN-free quaternions. -/
theorem oquat_mul_one (q : Quat) :
    oquat_mul (toOQuat ⟨0, 0, 0, 1⟩) (toOQuat q) = toOQuat q := by
  simp only [oquat_mul, toOQuat, oadd, omul, osub, OQuat.mk.injEq,
    Option.some.injEq]
  refine ⟨by ring, by ring, by ring, by ring⟩

/-- A concrete oracle: the (here unused away from zero) norm is `0` on
the zero vector and `1` elsewhere; sine is constantly `0` and cosine
constantly `1`, matching the real functions at angle `0`. -/
def rot_oracle_w : RotOracle :=
  { nrm := fun v => if v = ⟨0, 0, 0⟩ then 0 else 1
    sin := fun _ => 0
    cos := fun _ => 1 }

/-- The rotation-action config with rotation clamping disabled. -/
def rl_rot_cfg_noclamp : RlRotCfg :=
  { clamp_rot := false, clamp_rot_thresh := 0, rot_action_scale := ⟨1, 1, 1⟩ }

/-- The rotation-action config with rotation clamping enabled and a
nonnegative threshold. -/
def rl_rot_cfg_clamp : RlRotCfg :=
  { clamp_rot := true, clamp_rot_thresh := 0, rot_action_scale := ⟨1, 1, 1⟩ }

/-- Claim C4 counterexample: with the `clamp_rot` flag disabled and a
zero-norm rotation action, NO identity special-casing happens: the
division by the zero angle poisons the axis and the NaN propagates into
both arms' target quaternions (x-component NaN), instead of the target
equalling the current orientation (whose x-component is `0`). -/
theorem claim_C4_counterexample :
    (apply_actions_rot_targets rot_oracle_w rl_rot_cfg_noclamp true
        (fun _ => 0) ⟨0, 0, 0, 1⟩ ⟨0, 0, 0, 1⟩).1.x = none
    ∧ (apply_actions_rot_targets rot_oracle_w rl_rot_cfg_noclamp true
        (fun _ => 0) ⟨0, 0, 0, 1⟩ ⟨0, 0, 0, 1⟩).2.x = none
    ∧ (toOQuat ⟨0, 0, 0, 1⟩).x = some 0 := by
  refine ⟨?_, ?_, rfl⟩ <;>
    simp [apply_actions_rot_targets, apply_rot_action, rot_oracle_w,
      rl_rot_cfg_noclamp, scale_rot, quat_from_angle_axis, odiv, omul, oadd,
      osub, oquat_mul, toOQuat]

/-- Claim C4 (amended): when the `clamp_rot` configuration flag is
enabled with a nonnegative threshold, a policy action whose rotation
sub-vectors have exactly zero norm is special-cased to the identity
rotation for both arms: each target orientation equals the arm's current
fingertip-midpoint orientation and no NaN enters either target
quaternion.  (With `clamp_rot` disabled the division by zero is NOT
special-cased — see the counterexample.) -/
theorem claim_C4_zero_rotation_identity (o : RotOracle) (hov : o.Valid)
    (cfg : RlRotCfg) (hc : cfg.clamp_rot = true)
    (ht : 0 ≤ cfg.clamp_rot_thresh) (do_scale : Bool) (actions : ℕ → ℚ)
    (q1 q2 : Quat)
    (hz1 : actions 3 = 0 ∧ actions 4 = 0 ∧ actions 5 = 0)
    (hz2 : actions 15 = 0 ∧ actions 16 = 0 ∧ actions 17 = 0) :
    apply_actions_rot_targets o cfg do_scale actions q1 q2
      = (toOQuat q1, toOQuat q2) := by
  obtain ⟨hn, hs, hcos⟩ := hov
  obtain ⟨ha3, ha4, ha5⟩ := hz1
  obtain ⟨hb3, hb4, hb5⟩ := hz2
  have hsc : scale_rot do_scale cfg.rot_action_scale ⟨0, 0, 0⟩ = ⟨0, 0, 0⟩ := by
    cases do_scale <;> simp [scale_rot]
  have hng : ¬ ((0 : ℚ) > cfg.clamp_rot_thresh) := not_lt.mpr ht
  have key : ∀ q : Quat,
      apply_rot_action o cfg do_scale ⟨0, 0, 0⟩ q = toOQuat q := by
    intro q
    simp only [apply_rot_action, hsc, hn, hc, if_true]
    rw [if_neg hng]
    exact oquat_mul_one q
  simp only [apply_actions_rot_targets, ha3, ha4, ha5, hb3, hb4, hb5, key]

/-- Claim C4 witness: with the clamping config enabled, the all-zero
action leaves two concrete current orientations untouched. -/
theorem claim_C4_witness :
    rot_oracle_w.Valid ∧ rl_rot_cfg_clamp.clamp_rot = true
    ∧ (0 : ℚ) ≤ rl_rot_cfg_clamp.clamp_rot_thresh
    ∧ apply_actions_rot_targets rot_oracle_w rl_rot_cfg_clamp true
        (fun _ => 0) ⟨0, 0, 0, 1⟩ ⟨1, 0, 0, 0⟩
      = (toOQuat ⟨0, 0, 0, 1⟩, toOQuat ⟨1, 0, 0, 0⟩) := by
  have hov : rot_oracle_w.Valid := by
    unfold RotOracle.Valid
    exact ⟨by decide, rfl, rfl⟩
  exact ⟨hov, rfl, le_refl 0,
    claim_C4_zero_rotation_identity rot_oracle_w hov rl_rot_cfg_clamp rfl
      (le_refl 0) true (fun _ => 0) ⟨0, 0, 0, 1⟩ ⟨1, 0, 0, 0⟩
      ⟨rfl, rfl, rfl⟩ ⟨rfl, rfl, rfl⟩⟩

end PandaFactory
